import Mathlib

/-!
Verification of the zero-knowledge license protocol implemented in
`src/js/ZeroKnowledgeLicense.ts` (class `ZeroKnowledgeLicense`).

The TypeScript source works over JavaScript `BigInt` values and hex strings.
The shallow embedding below mirrors it:

* JS `BigInt` is modelled as `Int` (scalars that are provably non-negative
  are sometimes handled as `Nat` and coerced);
* the truncating JS `%` operator on `BigInt` (sign follows the dividend) is
  `Int.tmod`;
* `x.toString(16)` for a `BigInt` is `jsHexStr` (lowercase hex digits, no
  leading zeros, a leading "-" for negative values), and
  `.padStart(64, c0)` where `c0` is the zero digit is `padStart64`;
* `BigInt(hexPrefix + s)` (the string `s` prefixed by the hex prefix, as in
  the verifier code) is `natOfHex?`, returning `none` where JS throws a
  `SyntaxError` (empty or non-hex-digit input), which every verifier
  catches and converts to `false`;
* `crypto.createHash(sha256Name).update(s).digest(hexName)` is `hashValue`,
  a full executable SHA-256 over the ASCII bytes of `s` (all strings hashed
  by the source - hex digests, feature names, license keys, challenges and
  nonces - are ASCII, so UTF-8 encoding agrees with `Char.toNat`);
* `Map` objects are association lists with JS `Map.get`/`Map.set` semantics
  (`lookup` / `mapSet`);
* `Date` values are millisecond counts (`Nat`), as the source only ever
  uses `getTime()` differences and comparisons;
* randomness (`crypto.randomBytes`, `randomScalar`) is passed in as
  explicit parameters ranging over the support of the source's sampling
  (any scalar below the group order, any ASCII string for keys/nonces).

Recursion is written with structural fuel so every definition reduces
inside the kernel and concrete runs can be settled by `decide`.
-/

set_option maxRecDepth 1000000

-- ═══════════════════════════════════════════════════════════════════════════
-- Hex encoding / decoding with JavaScript semantics
-- ═══════════════════════════════════════════════════════════════════════════

/-- Lowercase hex digit for `d < 16`, as produced by `BigInt.toString(16)`. -/
def hexDigitChar (d : Nat) : Char :=
  if d < 10 then Char.ofNat (48 + d) else Char.ofNat (87 + d)

/-- Little-endian hex digits of `n`; the fuel argument makes the recursion
structural (any fuel at least the digit count gives the same result). -/
def natHexRevFuel : Nat → Nat → List Char
  | 0, _ => []
  | fuel + 1, n => if n = 0 then [] else hexDigitChar (n % 16) :: natHexRevFuel fuel (n / 16)

/-- JS `n.toString(16)` for a non-negative BigInt: lowercase hex without
leading zeros, and the single digit zero for `n = 0`. -/
def natHex (n : Nat) : String :=
  if n = 0 then "0" else ((natHexRevFuel n n).reverse).asString

/-- JS `i.toString(16)` for a BigInt of either sign: negative values render
as a minus sign followed by the hex digits of the absolute value. -/
def jsHexStr (i : Int) : String :=
  if i < 0 then "-" ++ natHex i.natAbs else natHex i.toNat

/-- JS `s.padStart(64, zeroDigit)`: left-pad with the zero digit up to
length 64 (a longer string, e.g. a negative rendering, is unchanged). -/
def padStart64 (s : String) : String :=
  if s.length < 64 then (List.replicate (64 - s.length) '0').asString ++ s else s

/-- Combination `i.toString(16).padStart(64, zeroDigit)` used everywhere the
source renders a commitment or verification result. -/
def jsHexPad64 (i : Int) : String := padStart64 (jsHexStr i)

/-- Numeric value of one hex digit character, upper or lower case, as
accepted by the JS `BigInt` constructor; `none` for a non-digit. -/
def hexDigitVal? (ch : Char) : Option Nat :=
  let n := ch.toNat
  if 48 ≤ n ∧ n ≤ 57 then some (n - 48)
  else if 97 ≤ n ∧ n ≤ 102 then some (n - 87)
  else if 65 ≤ n ∧ n ≤ 70 then some (n - 55)
  else none

/-- Horner accumulation of hex digits; `none` on the first non-digit. -/
def natOfHexAux : List Char → Nat → Option Nat
  | [], acc => some acc
  | ch :: rest, acc =>
    match hexDigitVal? ch with
    | none => none
    | some d => natOfHexAux rest (acc * 16 + d)

/-- JS `BigInt` applied to the hex prefix followed by `s`: parses `s` as hex,
`none` where JS throws (empty string or any non-hex character - every
verifier wraps this in try/catch and returns `false`). -/
def natOfHex? (s : String) : Option Nat :=
  if s.length = 0 then none else natOfHexAux s.toList 0

-- ═══════════════════════════════════════════════════════════════════════════
-- SHA-256 (crypto.createHash) over ASCII bytes, executable in the kernel
-- ═══════════════════════════════════════════════════════════════════════════

/-- Modulus of 32-bit words. -/
def w32 : Nat := 4294967296

/-- Right rotation of a 32-bit word. -/
def rotr (n x : Nat) : Nat := ((x >>> n) ||| (x <<< (32 - n))) % w32

/-- SHA-256 choice function. -/
def shaCh (x y z : Nat) : Nat := (x &&& y) ^^^ ((x ^^^ 4294967295) &&& z)

/-- SHA-256 majority function. -/
def shaMaj (x y z : Nat) : Nat := (x &&& y) ^^^ (x &&& z) ^^^ (y &&& z)

/-- SHA-256 big sigma 0. -/
def bigSigma0 (x : Nat) : Nat := rotr 2 x ^^^ rotr 13 x ^^^ rotr 22 x

/-- SHA-256 big sigma 1. -/
def bigSigma1 (x : Nat) : Nat := rotr 6 x ^^^ rotr 11 x ^^^ rotr 25 x

/-- SHA-256 small sigma 0. -/
def smallSigma0 (x : Nat) : Nat := rotr 7 x ^^^ rotr 18 x ^^^ (x >>> 3)

/-- SHA-256 small sigma 1. -/
def smallSigma1 (x : Nat) : Nat := rotr 17 x ^^^ rotr 19 x ^^^ (x >>> 10)

/-- SHA-256 round constants (decimal renderings of the standard values). -/
def shaK : List Nat :=
  [1116352408, 1899447441, 3049323471, 3921009573, 961987163, 1508970993,
   2453635748, 2870763221, 3624381080, 310598401, 607225278, 1426881987,
   1925078388, 2162078206, 2614888103, 3248222580, 3835390401, 4022224774,
   264347078, 604807628, 770255983, 1249150122, 1555081692, 1996064986,
   2554220882, 2821834349, 2952996808, 3210313671, 3336571891, 3584528711,
   113926993, 338241895, 666307205, 773529912, 1294757372, 1396182291,
   1695183700, 1986661051, 2177026350, 2456956037, 2730485921, 2820302411,
   3259730800, 3345764771, 3516065817, 3600352804, 4094571909, 275423344,
   430227734, 506948616, 659060556, 883997877, 958139571, 1322822218,
   1537002063, 1747873779, 1955562222, 2024104815, 2227730452, 2361852424,
   2428436474, 2756734187, 3204031479, 3329325298]

/-- SHA-256 initial hash words (decimal renderings). -/
def shaH0 : List Nat :=
  [1779033703, 3144134277, 1013904242, 2773480762, 1359893119, 2600822924,
   528734635, 1541459225]

/-- Working state of the SHA-256 compression function. -/
structure SHAState where
  a : Nat
  b : Nat
  c : Nat
  d : Nat
  e : Nat
  f : Nat
  g : Nat
  h : Nat

/-- One SHA-256 compression round. -/
def shaRound (st : SHAState) (k wt : Nat) : SHAState :=
  let t1 := (st.h + bigSigma1 st.e + shaCh st.e st.f st.g + k + wt) % w32
  let t2 := (bigSigma0 st.a + shaMaj st.a st.b st.c) % w32
  ⟨(t1 + t2) % w32, st.a, st.b, st.c, (st.d + t1) % w32, st.e, st.f, st.g⟩

/-- Message-schedule extension, carried in reverse (newest word first) so
each of the `n` steps reads `w[t-2]`, `w[t-7]`, `w[t-15]`, `w[t-16]` at the
fixed offsets 1, 6, 14, 15 from the front and prepends the next word. -/
def extendScheduleRev : Nat → List Nat → List Nat
  | 0, w => w
  | n + 1, w =>
    let t := (smallSigma1 (w.getD 1 0) + w.getD 6 0 +
              smallSigma0 (w.getD 14 0) + w.getD 15 0) % w32
    extendScheduleRev n (t :: w)

/-- SHA-256 compression of one 16-word block into the 8-word chain value. -/
def compressBlock (h8 : List Nat) (block : List Nat) : List Nat :=
  let w := (extendScheduleRev 48 block.reverse).reverse
  let st0 : SHAState := ⟨h8.getD 0 0, h8.getD 1 0, h8.getD 2 0, h8.getD 3 0,
                         h8.getD 4 0, h8.getD 5 0, h8.getD 6 0, h8.getD 7 0⟩
  let stf := (List.zip shaK w).foldl (fun st kw => shaRound st kw.1 kw.2) st0
  [(h8.getD 0 0 + stf.a) % w32, (h8.getD 1 0 + stf.b) % w32,
   (h8.getD 2 0 + stf.c) % w32, (h8.getD 3 0 + stf.d) % w32,
   (h8.getD 4 0 + stf.e) % w32, (h8.getD 5 0 + stf.f) % w32,
   (h8.getD 6 0 + stf.g) % w32, (h8.getD 7 0 + stf.h) % w32]

/-- Standard SHA-256 padding: `0x80`, zeros, then the 64-bit big-endian
bit length. -/
def padMessage (msg : List Nat) : List Nat :=
  let len := msg.length
  let bitLen := len * 8
  let zeros := (119 - len % 64) % 64
  msg ++ [128] ++ List.replicate zeros 0 ++
    [bitLen / 72057594037927936 % 256, bitLen / 281474976710656 % 256,
     bitLen / 1099511627776 % 256, bitLen / 4294967296 % 256,
     bitLen / 16777216 % 256, bitLen / 65536 % 256, bitLen / 256 % 256, bitLen % 256]

/-- Big-endian packing of bytes into 32-bit words (input length is always a
multiple of four after padding). -/
def bytesToWords : List Nat → List Nat
  | b0 :: b1 :: b2 :: b3 :: rest => (((b0 * 256 + b1) * 256 + b2) * 256 + b3) :: bytesToWords rest
  | _ => []

/-- Chunking of the word stream into 16-word blocks (fuel-structural). -/
def toBlocksFuel : Nat → List Nat → List (List Nat)
  | 0, _ => []
  | _, [] => []
  | fuel + 1, ws => ws.take 16 :: toBlocksFuel fuel (ws.drop 16)

/-- Chunking of the word stream into 16-word blocks. -/
def toBlocks (words : List Nat) : List (List Nat) := toBlocksFuel words.length words

/-- SHA-256 digest of a byte list, as eight 32-bit words. -/
def sha256Words (msgBytes : List Nat) : List Nat :=
  (toBlocks (bytesToWords (padMessage msgBytes))).foldl compressBlock shaH0

/-- SHA-256 digest of a byte list, as one 256-bit natural number. -/
def sha256Nat (msgBytes : List Nat) : Nat :=
  (sha256Words msgBytes).foldl (fun acc w => acc * w32 + w) 0

/-- ASCII bytes of a string (all strings hashed by the source are ASCII). -/
def strBytes (s : String) : List Nat := s.toList.map Char.toNat

/-- FIPS 180-4 test vector: the embedding computes the standard SHA-256
digest of the three-byte message abc. -/
theorem sha256_test_vector_abc :
    sha256Nat (strBytes "abc") =
      0xba7816bf8f01cfea414140de5dae2223b00361a396177a9cb410ff61f20015ad := by decide

/-- SHA-256 digest of the empty message, matching the standard value. -/
theorem sha256_test_vector_empty :
    sha256Nat (strBytes "") =
      0xe3b0c44298fc1c149afbf4c8996fb92427ae41e4649b934ca495991b7852b855 := by decide

-- ═══════════════════════════════════════════════════════════════════════════
-- Cryptographic primitives of ZeroKnowledgeLicense (lines 1086-1157)
-- ═══════════════════════════════════════════════════════════════════════════

/-- Field modulus of the hard-coded circuit parameters
(`initializeCircuitParams`). -/
def fieldModulus : Int := 21888242871839275222246405745257275088696311157297823662689037894645226208583

/-- Group order of the hard-coded circuit parameters. -/
def groupOrder : Nat := 21888242871839275222246405745257275088548364400416034343698204186575808495617

/-- X-coordinate of the stand-in generator `g1` (`BigInt(1)`). -/
def g1x : Int := 1

/-- X-coordinate of the stand-in generator `h` (`BigInt(5)`). -/
def hx : Int := 5

/-- Numeric core of `pedersenCommit`:
`(value * g1.x + blinding * h.x) % fieldModulus` with the JS truncating `%`. -/
def pedersenCommitInt (value blinding : Int) : Int :=
  (value * g1x + blinding * hx).tmod fieldModulus

/-- Source `pedersenCommit` (lines 1104-1109): the numeric core rendered as
`toString(16).padStart(64, zeroDigit)`. -/
def pedersenCommit (value blinding : Int) : String :=
  jsHexPad64 (pedersenCommitInt value blinding)

/-- Source `pedersenVerify` (lines 1114-1119): parses the commitment hex
(`none` models the JS `BigInt` throw on malformed input, caught by every
caller) and renders `(s1*g1.x + s2*h.x - c*C) % fieldModulus` - again with
the truncating JS `%`, so a negative residue renders with a minus sign. -/
def pedersenVerify (s1 s2 c : Int) (commitment : String) : Option String :=
  (natOfHex? commitment).map
    (fun cv => jsHexPad64 ((s1 * g1x + s2 * hx - c * (cv : Int)).tmod fieldModulus))

/-- Source `hashValue`: SHA-256 hex digest of a string (64 lowercase hex
characters, leading zeros included). -/
def hashValue (s : String) : String := padStart64 (natHex (sha256Nat (strBytes s)))

/-- Source `hashValues`: digest of the plain concatenation of the inputs. -/
def hashValues (values : List String) : String := hashValue (String.join values)

/-- Source `hashToScalar`: SHA-256 digest reduced modulo the group order. -/
def hashToScalar (s : String) : Nat := sha256Nat (strBytes s) % groupOrder

-- ═══════════════════════════════════════════════════════════════════════════
-- Data model (TYPE DEFINITIONS section of the source)
-- ═══════════════════════════════════════════════════════════════════════════

/-- License tiers. -/
inductive LicenseTier
  | trial
  | starter
  | professional
  | enterprise
  | unlimited
deriving DecidableEq, BEq

/-- The six proof types. -/
inductive ProofType
  | licenseOwnership
  | tierMembership
  | featureAccess
  | usageQuota
  | timeValidity
  | workerAllocation
deriving DecidableEq, BEq

/-- Merkle proof for feature inclusion. -/
structure MerkleProof where
  leaf : String
  path : List String
  indices : List Nat
deriving DecidableEq

/-- Witness data for proof generation. Quotas and timestamps are JS numbers
(`monthlyQuota` is -1 for the unlimited tier), so they are `Int`. -/
structure WitnessData where
  tier : LicenseTier
  tierValue : Int
  expirationTimestamp : Int
  maxWorkers : Int
  enabledFeatures : List String
  usageQuota : Int
  usedQuota : Int
  featureMerkleProofs : List (String × MerkleProof)
deriving DecidableEq

/-- Blinding factors of a license secret. -/
structure BlindingFactors where
  license : String
  tier : String
  expiration : String
  features : List String
deriving DecidableEq

/-- License secret held by the client. The derived `masterSecret` and
`proofSecret` fields (HMAC outputs) are never read by any generator or
verifier in the source, so they are omitted from the embedding. -/
structure LicenseSecret where
  licenseKey : String
  blindingFactors : BlindingFactors
  witnessData : WitnessData
deriving DecidableEq

/-- Public license commitment (the `createdAt` date is never read). -/
structure LicenseCommitment where
  commitmentId : String
  commitment : String
  tierCommitment : String
  expirationCommitment : String
  featureMerkleRoot : String
  verificationKeyHash : String
deriving DecidableEq

/-- The proof triple: `a` a pair, `b` a pair of pairs, `c` a pair of hex
strings, exactly the shape built by the six generators. -/
structure ProofData where
  a : String × String
  b : (String × String) × (String × String)
  c : String × String
deriving DecidableEq

/-- A zero-knowledge proof. The `timestamp`, `verified` and `verifiedAt`
fields are metadata never read by verification and are omitted. -/
structure ZKProof where
  proofId : String
  proofType : ProofType
  proof : ProofData
  publicInputs : List String
  commitmentId : String
  nonce : String
  challenge : String
deriving DecidableEq

/-- Proof requirements: a union keyed by proof type. -/
structure ProofRequirements where
  minimumTier : Option LicenseTier
  requiredFeature : Option String
  requiredQuota : Option Int
  requestedWorkers : Option Int
  currentTimestamp : Option Int
deriving DecidableEq

/-- Empty requirements record. -/
def emptyReqs : ProofRequirements := ⟨none, none, none, none, none⟩

/-- A verifier's proof request. -/
structure ProofRequest where
  requestId : String
  proofType : ProofType
  requirements : ProofRequirements
  challenge : String
  expiresAt : Nat
deriving DecidableEq

/-- Proven claims of a verification result (`extractProvenClaims` always
sets all six booleans; `createInvalidResult` sets only the first). -/
structure ProvenClaims where
  hasValidLicense : Bool
  meetsTierRequirement : Option Bool
  hasFeatureAccess : Option Bool
  hasQuota : Option Bool
  hasWorkerCapacity : Option Bool
  isNotExpired : Option Bool
deriving DecidableEq

/-- Verification result (`verifiedAt` / `verificationTime` timing metadata
is not modelled). -/
structure VerificationResult where
  valid : Bool
  proofId : String
  provenClaims : ProvenClaims
deriving DecidableEq

/-- Tier limits from the configuration. -/
structure TierLimits where
  maxWorkers : Int
  monthlyQuota : Int
  features : List String

/-- The configuration fields the protocol logic reads. -/
structure ZKConfig where
  proofExpirationMs : Nat
  maxProofsPerHour : Nat
  tierHierarchy : LicenseTier → Int
  tierLimits : LicenseTier → TierLimits
  verificationCacheMs : Nat

/-- Tier ranks of `DEFAULT_CONFIG.tierHierarchy`. -/
def defaultTierHierarchy : LicenseTier → Int
  | .trial => 1
  | .starter => 2
  | .professional => 3
  | .enterprise => 4
  | .unlimited => 5

/-- Tier limits of `DEFAULT_CONFIG.tierLimits` (lines 302-308); note the
monthly quota -1 of the unlimited tier. -/
def defaultTierLimits : LicenseTier → TierLimits
  | .trial => ⟨1, 1000, ["basic-crawling"]⟩
  | .starter => ⟨5, 100000, ["basic-crawling", "stealth-mode", "api-access"]⟩
  | .professional => ⟨25, 1000000,
      ["basic-crawling", "stealth-mode", "swarm-workers", "ai-oracle", "api-access"]⟩
  | .enterprise => ⟨100, 10000000,
      ["basic-crawling", "stealth-mode", "swarm-workers", "ai-oracle", "visual-testing",
       "api-access", "priority-support"]⟩
  | .unlimited => ⟨1000, -1,
      ["basic-crawling", "stealth-mode", "swarm-workers", "ai-oracle", "visual-testing",
       "api-access", "priority-support", "custom-training", "white-label", "on-premise"]⟩

/-- The `DEFAULT_CONFIG` values read by the protocol logic. -/
def DEFAULT_CONFIG : ZKConfig :=
  ⟨300000, 1000, defaultTierHierarchy, defaultTierLimits, 60000⟩

-- ═══════════════════════════════════════════════════════════════════════════
-- Association lists with JS Map semantics
-- ═══════════════════════════════════════════════════════════════════════════

/-- JS `Map.get`: the value stored under exactly this key. -/
def lookup {α : Type} (k : String) : List (String × α) → Option α
  | [] => none
  | (k0, v) :: rest => if k0 == k then some v else lookup k rest

/-- JS `Map.set`: replace the entry under the key, or append a fresh one. -/
def mapSet {α : Type} (k : String) (v : α) : List (String × α) → List (String × α)
  | [] => [(k, v)]
  | (k0, v0) :: rest => if k0 == k then (k, v) :: rest else (k0, v0) :: mapSet k v rest

-- ═══════════════════════════════════════════════════════════════════════════
-- Feature Merkle tree (createFeatureMerkleTree, lines 1162-1211)
-- ═══════════════════════════════════════════════════════════════════════════

/-- One level-up step of the tree build: pairs are hashed left-right, and an
odd trailing node is hashed with itself (`currentLevel[i+1] || left`). -/
def nextLevel : List String → List String
  | [] => []
  | [x] => [hashValues [x, x]]
  | x :: y :: rest => hashValues [x, y] :: nextLevel rest

/-- Tree levels from the leaves up to the single root level, fuel-structural
(the fuel is the leaf count, an upper bound on the level count). -/
def buildLevelsFuel : Nat → List String → List (List String)
  | 0, cur => [cur]
  | fuel + 1, cur => if cur.length ≤ 1 then [cur] else cur :: buildLevelsFuel fuel (nextLevel cur)

/-- All levels of the Merkle tree, leaves first, root level last - the
`levels` array of the source. -/
def buildLevels (cur : List String) : List (List String) := buildLevelsFuel cur.length cur

/-- Proof-path generation for the leaf at `index`: walking every level but
the last, record the sibling and the parity bit - but only when
`siblingIndex < levels[level].length`; the duplicated trailing node of an
odd level has no stored sibling and the level is skipped. -/
def genPath : List (List String) → Nat → List String × List Nat
  | [], _ => ([], [])
  | [_], _ => ([], [])
  | lvl :: rest, index =>
    let siblingIndex := if index % 2 = 0 then index + 1 else index - 1
    let tail := genPath rest (index / 2)
    if siblingIndex < lvl.length then
      ((lvl.getD siblingIndex "") :: tail.1, (index % 2) :: tail.2)
    else tail

/-- Source `createFeatureMerkleTree`: hashes the feature names into leaves,
builds the levels, and returns the root together with a map from feature
name to its Merkle proof. The features of a tier are pairwise distinct, so
the association list agrees with the JS `Map`. -/
def createFeatureMerkleTree (features : List String) : String × List (String × MerkleProof) :=
  let leaves := features.map hashValue
  let levels := buildLevels leaves
  let root := match (levels.getLastD []).head? with
    | some r => r
    | none => hashValue "empty"
  let proofs := (List.range features.length).map (fun i =>
    let pi := genPath levels i
    (features.getD i "", MerkleProof.mk (leaves.getD i "") pi.1 pi.2))
  (root, proofs)

/-- Folding of a Merkle path as the specification describes it (spec 4.2 and
claim C6): starting from the leaf hash, hash `(current, sibling)` when the
stored index is 0 and `(sibling, current)` when it is 1. This definition
follows the spec wording and is compared against the source tree. -/
def specFoldMerklePath (cur : String) : List String → List Nat → String
  | [], _ => cur
  | sib :: ps, idx :: rest =>
    specFoldMerklePath (if idx = 0 then hashValues [cur, sib] else hashValues [sib, cur]) ps rest
  | _ :: _, [] => cur

-- ═══════════════════════════════════════════════════════════════════════════
-- License creation (createLicense, lines 368-459)
-- ═══════════════════════════════════════════════════════════════════════════

/-- Source `createLicense`, parametrized by the sampled license key, blinding
factors and commitment id (the source draws them from `crypto.randomBytes`).
The expiration timestamp is the floor of the date in seconds, passed in
directly. Returns the public commitment and the private secret. -/
def createLicense (cfg : ZKConfig) (tier : LicenseTier) (expirationTimestamp : Int)
    (licenseKey : String) (bf : BlindingFactors) (commitmentId : String) :
    LicenseCommitment × LicenseSecret :=
  let licenseCommitment := pedersenCommit (hashToScalar licenseKey) (hashToScalar bf.license)
  let tierValue := cfg.tierHierarchy tier
  let tierCommitment := pedersenCommit tierValue (hashToScalar bf.tier)
  let expirationCommitment := pedersenCommit expirationTimestamp (hashToScalar bf.expiration)
  let limits := cfg.tierLimits tier
  let featureMerkleData := createFeatureMerkleTree limits.features
  let witnessData : WitnessData :=
    ⟨tier, tierValue, expirationTimestamp, limits.maxWorkers, limits.features,
     limits.monthlyQuota, 0, featureMerkleData.2⟩
  let verificationKeyHash := hashValues
    [licenseCommitment, tierCommitment, expirationCommitment, featureMerkleData.1]
  (⟨commitmentId, licenseCommitment, tierCommitment, expirationCommitment,
    featureMerkleData.1, verificationKeyHash⟩,
   ⟨licenseKey, bf, witnessData⟩)

-- ═══════════════════════════════════════════════════════════════════════════
-- Rate limiting (checkRateLimit, lines 1220-1233)
-- ═══════════════════════════════════════════════════════════════════════════

/-- Rate limiter state: per-commitment hourly proof counts and the time the
counters were last reset. -/
structure RateState where
  proofCounts : List (String × Nat)
  proofCountReset : Nat
deriving DecidableEq

/-- Source `checkRateLimit`: clear all counters when more than an hour has
passed since the last reset, then fail (second component `false`) when the
count has reached `maxProofsPerHour`, else increment. The first component
is the state after the call (the JS method mutates, then possibly throws). -/
def checkRateLimit (cfg : ZKConfig) (now : Nat) (commitmentId : String) (st : RateState) :
    RateState × Bool :=
  let st1 := if now - st.proofCountReset > 3600000 then RateState.mk [] now else st
  let count := (lookup commitmentId st1.proofCounts).getD 0
  if count ≥ cfg.maxProofsPerHour then (st1, false)
  else (⟨mapSet commitmentId (count + 1) st1.proofCounts, st1.proofCountReset⟩, true)

-- ═══════════════════════════════════════════════════════════════════════════
-- Proof generation (client side, lines 488-824)
-- ═══════════════════════════════════════════════════════════════════════════

/-- Random scalars drawn by the generators via `randomScalar` (each below
the group order). -/
structure Randomness where
  r : Nat
  k : Nat
  l1 : Nat
  l2 : Nat
  r1 : Nat
  r2 : Nat

/-- Typed errors thrown by `generateProof` and its helpers. The source
throws `Error` objects with fixed messages; each constructor stands for one
message. `missingRequirement` models the JS `RangeError`/`TypeError` raised
when a requirement accessed with the non-null assertion is absent. -/
inductive ZKError
  | rateLimitExceeded
  | insufficientQuota
  | exceedsWorkerLimit
  | licenseExpired
  | featureNotLicensed (feature : String)
  | missingRequirement
deriving DecidableEq

/-- Source `generateOwnershipProof` (lines 572-611): Schnorr-style responses
reduced modulo the group order, first message `t = pedersenCommit r k`. -/
def generateOwnershipProof (secret : LicenseSecret) (cm : LicenseCommitment)
    (challenge nonce : String) (rnd : Randomness) : ProofData × List String :=
  let r := rnd.r
  let k := rnd.k
  let t := pedersenCommit r k
  let c := hashToScalar (cm.commitment ++ t ++ challenge ++ nonce)
  let s1 := (r + c * hashToScalar secret.licenseKey) % groupOrder
  let s2 := (k + c * hashToScalar secret.blindingFactors.license) % groupOrder
  (⟨(t, natHex s1), ((natHex s2, natHex c), ("0", "0")), (cm.commitment, nonce)⟩,
   [cm.commitment, challenge, cm.verificationKeyHash])

/-- Source `generateTierMembershipProof` (lines 617-659): commits to the
difference `actual - required` (which may be negative - no sign check) and
packages it; no failure path exists. -/
def generateTierMembershipProof (cfg : ZKConfig) (secret : LicenseSecret)
    (cm : LicenseCommitment) (minimumTier : LicenseTier) (challenge nonce : String)
    (rnd : Randomness) : ProofData × List String :=
  let requiredValue := cfg.tierHierarchy minimumTier
  let actualValue := secret.witnessData.tierValue
  let difference := actualValue - requiredValue
  let diffCommitment := pedersenCommit difference rnd.r
  let lComm := pedersenCommit rnd.l1 rnd.l2
  let rComm := pedersenCommit rnd.r1 rnd.r2
  let c := hashToScalar (cm.tierCommitment ++ diffCommitment ++ challenge ++ nonce)
  (⟨(diffCommitment, lComm), ((rComm, natHex c), (natHex rnd.r, "0")),
    (cm.tierCommitment, nonce)⟩,
   [cm.tierCommitment, toString requiredValue, challenge])

/-- Source `generateFeatureAccessProof` (lines 665-703): fails when the
witness holds no Merkle proof for the feature. -/
def generateFeatureAccessProof (secret : LicenseSecret) (cm : LicenseCommitment)
    (requiredFeature : String) (challenge nonce : String) (_rnd : Randomness) :
    Except ZKError (ProofData × List String) :=
  match lookup requiredFeature secret.witnessData.featureMerkleProofs with
  | none => .error (.featureNotLicensed requiredFeature)
  | some merkleProof =>
    let featureHash := hashValue requiredFeature
    let pathCommitment := hashValues merkleProof.path
    let c := hashToScalar
      (cm.featureMerkleRoot ++ featureHash ++ pathCommitment ++ challenge ++ nonce)
    .ok (⟨(merkleProof.leaf, pathCommitment),
          ((merkleProof.path.getD 0 "0", merkleProof.path.getD 1 "0"),
           (String.intercalate "," (merkleProof.indices.map toString), natHex c)),
          (cm.featureMerkleRoot, nonce)⟩,
         [cm.featureMerkleRoot, featureHash, challenge])

/-- Source `generateQuotaProof` (lines 709-743): client-side rejection when
the remaining quota is below the requirement. -/
def generateQuotaProof (secret : LicenseSecret) (cm : LicenseCommitment)
    (requiredQuota : Int) (challenge nonce : String) (rnd : Randomness) :
    Except ZKError (ProofData × List String) :=
  let remaining := secret.witnessData.usageQuota - secret.witnessData.usedQuota
  if remaining < requiredQuota then .error .insufficientQuota
  else
    let difference := remaining - requiredQuota
    let diffCommitment := pedersenCommit difference rnd.r
    let c := hashToScalar (diffCommitment ++ toString requiredQuota ++ challenge ++ nonce)
    .ok (⟨(diffCommitment, natHex c), ((natHex rnd.r, "0"), ("0", "0")),
          (cm.commitment, nonce)⟩,
         [toString requiredQuota, challenge])

/-- Source `generateWorkerAllocationProof` (lines 749-783): client-side
rejection when more workers are requested than the witness allows. -/
def generateWorkerAllocationProof (secret : LicenseSecret) (cm : LicenseCommitment)
    (requestedWorkers : Int) (challenge nonce : String) (rnd : Randomness) :
    Except ZKError (ProofData × List String) :=
  let maxWorkers := secret.witnessData.maxWorkers
  if requestedWorkers > maxWorkers then .error .exceedsWorkerLimit
  else
    let difference := maxWorkers - requestedWorkers
    let diffCommitment := pedersenCommit difference rnd.r
    let c := hashToScalar (diffCommitment ++ toString requestedWorkers ++ challenge ++ nonce)
    .ok (⟨(diffCommitment, natHex c), ((natHex rnd.r, toString maxWorkers), ("0", "0")),
          (cm.tierCommitment, nonce)⟩,
         [toString requestedWorkers, challenge])

/-- Source `generateTimeValidityProof` (lines 789-824): client-side
rejection when the license is already expired. -/
def generateTimeValidityProof (secret : LicenseSecret) (cm : LicenseCommitment)
    (currentTimestamp : Int) (challenge nonce : String) (rnd : Randomness) :
    Except ZKError (ProofData × List String) :=
  let expiration := secret.witnessData.expirationTimestamp
  if expiration ≤ currentTimestamp then .error .licenseExpired
  else
    let difference := expiration - currentTimestamp
    let diffCommitment := pedersenCommit difference rnd.r
    let c := hashToScalar
      (cm.expirationCommitment ++ diffCommitment ++ challenge ++ nonce)
    .ok (⟨(diffCommitment, natHex c),
          ((natHex rnd.r, secret.blindingFactors.expiration), ("0", "0")),
          (cm.expirationCommitment, nonce)⟩,
         [cm.expirationCommitment, toString currentTimestamp, challenge])

/-- Packaging of a generated proof triple into a `ZKProof` (lines 544-556). -/
def packageProof (proofId : String) (ty : ProofType) (pr : ProofData × List String)
    (commitmentId nonce challenge : String) : ZKProof :=
  ⟨proofId, ty, pr.1, pr.2, commitmentId, nonce, challenge⟩

/-- Source `generateProof` (lines 488-567): consult the rate limiter first
(its increment survives even when generation later fails), then dispatch on
the proof type, reading the requirement the source accesses with the
non-null assertion. Returns the result together with the rate state after
the call. -/
def generateProof (cfg : ZKConfig) (st : RateState) (now : Nat) (secret : LicenseSecret)
    (cm : LicenseCommitment) (request : ProofRequest) (proofId nonce : String)
    (rnd : Randomness) : Except ZKError ZKProof × RateState :=
  let check := checkRateLimit cfg now cm.commitmentId st
  if check.2 then
    let body : Except ZKError (ProofData × List String) :=
      match request.proofType with
      | .licenseOwnership =>
        .ok (generateOwnershipProof secret cm request.challenge nonce rnd)
      | .tierMembership =>
        match request.requirements.minimumTier with
        | some mt => .ok (generateTierMembershipProof cfg secret cm mt request.challenge nonce rnd)
        | none => .error .missingRequirement
      | .featureAccess =>
        match request.requirements.requiredFeature with
        | some f => generateFeatureAccessProof secret cm f request.challenge nonce rnd
        | none => .error .missingRequirement
      | .usageQuota =>
        match request.requirements.requiredQuota with
        | some q => generateQuotaProof secret cm q request.challenge nonce rnd
        | none => .error .missingRequirement
      | .workerAllocation =>
        match request.requirements.requestedWorkers with
        | some wk => generateWorkerAllocationProof secret cm wk request.challenge nonce rnd
        | none => .error .missingRequirement
      | .timeValidity =>
        match request.requirements.currentTimestamp with
        | some ts => generateTimeValidityProof secret cm ts request.challenge nonce rnd
        | none => .error .missingRequirement
    match body with
    | .error e => (.error e, check.1)
    | .ok pr =>
      (.ok (packageProof proofId request.proofType pr cm.commitmentId nonce request.challenge),
       check.1)
  else (.error .rateLimitExceeded, check.1)

-- ═══════════════════════════════════════════════════════════════════════════
-- Proof verification (server side, lines 833-1049)
-- ═══════════════════════════════════════════════════════════════════════════

/-- Source `verifyOwnershipProof` (lines 919-933): parse `s1`, `s2`, `c`
from the proof, recompute `pedersenVerify` and compare the rendered strings;
any parse failure is caught and yields `false`. -/
def verifyOwnershipProof (p : ZKProof) (cm : LicenseCommitment) : Bool :=
  match natOfHex? p.proof.a.2, natOfHex? p.proof.b.1.1, natOfHex? p.proof.b.1.2 with
  | some s1, some s2, some c =>
    match pedersenVerify s1 s2 c cm.commitment with
    | some expected => p.proof.a.1 == expected
    | none => false
  | _, _, _ => false

/-- Source `verifyTierMembershipProof` (lines 938-949): parses the challenge
scalar from `proof.b[0][1]` (a failure is caught as `false`) and then only
checks the linkage `proof.c[0] === commitment.tierCommitment`; the
difference commitment is read but never constrained. -/
def verifyTierMembershipProof (p : ZKProof) (cm : LicenseCommitment) : Bool :=
  match natOfHex? p.proof.b.1.2 with
  | some _ => p.proof.c.1 == cm.tierCommitment
  | none => false

/-- Source `verifyFeatureAccessProof` (lines 954-981): after the root
linkage check it walks the two path entries, but the loop result is
discarded and the function returns `true` unconditionally (the loop itself
cannot throw: splitting and `Number` conversion never raise, and hashing is
total), so the whole body reduces to the linkage comparison. -/
def verifyFeatureAccessProof (p : ZKProof) (cm : LicenseCommitment) : Bool :=
  p.proof.c.1 == cm.featureMerkleRoot

/-- Source `verifyQuotaProof` (lines 986-994): only checks that the
difference-commitment string is non-empty. -/
def verifyQuotaProof (p : ZKProof) (_cm : LicenseCommitment) : Bool :=
  decide (0 < p.proof.a.1.length)

/-- Source `verifyWorkerAllocationProof` (lines 999-1006): non-empty
difference commitment plus tier-commitment linkage. -/
def verifyWorkerAllocationProof (p : ZKProof) (cm : LicenseCommitment) : Bool :=
  decide (0 < p.proof.a.1.length) && (p.proof.c.1 == cm.tierCommitment)

/-- Source `verifyTimeValidityProof` (lines 1011-1017): expiration-commitment
linkage only. -/
def verifyTimeValidityProof (p : ZKProof) (cm : LicenseCommitment) : Bool :=
  p.proof.c.1 == cm.expirationCommitment

/-- Dispatch of `verifyProof` on the proof type (lines 852-876). -/
def verifyDispatch (p : ZKProof) (cm : LicenseCommitment) : Bool :=
  match p.proofType with
  | .licenseOwnership => verifyOwnershipProof p cm
  | .tierMembership => verifyTierMembershipProof p cm
  | .featureAccess => verifyFeatureAccessProof p cm
  | .usageQuota => verifyQuotaProof p cm
  | .workerAllocation => verifyWorkerAllocationProof p cm
  | .timeValidity => verifyTimeValidityProof p cm

/-- Source `extractProvenClaims` (lines 1022-1034). -/
def extractProvenClaims (p : ZKProof) (isValid : Bool) : ProvenClaims :=
  ⟨isValid && p.proofType == .licenseOwnership,
   some (isValid && p.proofType == .tierMembership),
   some (isValid && p.proofType == .featureAccess),
   some (isValid && p.proofType == .usageQuota),
   some (isValid && p.proofType == .workerAllocation),
   some (isValid && p.proofType == .timeValidity)⟩

/-- Source `createInvalidResult` (lines 1039-1049): only `hasValidLicense`
is populated. -/
def createInvalidResult (proofId : String) : VerificationResult :=
  ⟨false, proofId, ⟨false, none, none, none, none, none⟩⟩

/-- Verifier-side shared state: the commitment registry and the verification
cache (result plus expiry time, keyed by proof id). -/
structure VerifierState where
  commitments : List (String × LicenseCommitment)
  proofCache : List (String × (VerificationResult × Nat))
deriving DecidableEq

/-- Cache-miss path of `verifyProof`: commitment lookup (failing closed,
without caching, when absent), type dispatch, and caching of the fresh
result with expiry `now + verificationCacheMs`. -/
def verifyProofCore (cfg : ZKConfig) (st : VerifierState) (now : Nat) (p : ZKProof) :
    VerificationResult × VerifierState :=
  match lookup p.commitmentId st.commitments with
  | none => (createInvalidResult p.proofId, st)
  | some cm =>
    let isValid := verifyDispatch p cm
    let result : VerificationResult := ⟨isValid, p.proofId, extractProvenClaims p isValid⟩
    (result,
     ⟨st.commitments, mapSet p.proofId (result, now + cfg.verificationCacheMs) st.proofCache⟩)

/-- Source `verifyProof` (lines 833-914): an unexpired cache entry for the
proof id is returned as-is (no challenge bookkeeping of any kind); otherwise
the proof is verified and the result cached. -/
def verifyProof (cfg : ZKConfig) (st : VerifierState) (now : Nat) (p : ZKProof) :
    VerificationResult × VerifierState :=
  match lookup p.proofId st.proofCache with
  | some cached => if now < cached.2 then (cached.1, st) else verifyProofCore cfg st now p
  | none => verifyProofCore cfg st now p

-- ═══════════════════════════════════════════════════════════════════════════
-- Helper lemmas
-- ═══════════════════════════════════════════════════════════════════════════

/-- Parsing a printed hex digit recovers the digit. -/
theorem hexDigitVal_hexDigitChar (d : Nat) (h : d < 16) :
    hexDigitVal? (hexDigitChar d) = some d := by
  interval_cases d <;> decide

/-- Hex parsing distributes over list append. -/
theorem natOfHexAux_append (l1 l2 : List Char) (acc : Nat) :
    natOfHexAux (l1 ++ l2) acc =
      match natOfHexAux l1 acc with
      | none => none
      | some a => natOfHexAux l2 a := by
  induction l1 generalizing acc with
  | nil => rfl
  | cons ch cs ih =>
    simp only [List.cons_append, natOfHexAux]
    cases hexDigitVal? ch with
    | none => rfl
    | some d => exact ih _

/-- Parsing the reversed digit list printed by `natHexRevFuel` recovers the
number (for sufficient fuel). -/
theorem natOfHexAux_natHexRevFuel (fuel : Nat) :
    ∀ n acc, n ≤ fuel →
      natOfHexAux ((natHexRevFuel fuel n).reverse) acc =
        some (acc * 16 ^ (natHexRevFuel fuel n).length + n) := by
  induction fuel with
  | zero =>
    intro n acc h
    interval_cases n
    simp [natHexRevFuel, natOfHexAux]
  | succ fuel ih =>
    intro n acc h
    by_cases h0 : n = 0
    · subst h0
      simp [natHexRevFuel, natOfHexAux]
    · have hdig : n % 16 < 16 := Nat.mod_lt n (by omega)
      have hle : n / 16 ≤ fuel := by
        have hlt : n / 16 < n := Nat.div_lt_self (Nat.pos_of_ne_zero h0) (by omega)
        omega
      simp only [natHexRevFuel, if_neg h0, List.reverse_cons]
      rw [natOfHexAux_append, ih (n / 16) acc hle]
      simp only [natOfHexAux, hexDigitVal_hexDigitChar (n % 16) hdig, List.length_cons]
      congr 1
      rw [pow_succ, ← Nat.mul_assoc]
      generalize acc * 16 ^ (natHexRevFuel fuel (n / 16)).length = A
      omega

/-- Round trip: the verifier's hex parse recovers any number printed by the
generator's `toString(16)`. -/
theorem natOfHex_natHex (n : Nat) : natOfHex? (natHex n) = some n := by
  by_cases h0 : n = 0
  · subst h0; decide
  · have hcons : ∃ d rest, natHexRevFuel n n = d :: rest := by
      cases n with
      | zero => exact absurd rfl h0
      | succ m =>
        refine ⟨hexDigitChar ((m + 1) % 16), natHexRevFuel m ((m + 1) / 16), ?_⟩
        simp [natHexRevFuel]
    obtain ⟨d, rest, hdr⟩ := hcons
    have hlen : ((natHexRevFuel n n).reverse).length ≠ 0 := by
      simp [hdr]
    unfold natHex natOfHex?
    rw [if_neg h0]
    have htl : ((natHexRevFuel n n).reverse.asString).toList = (natHexRevFuel n n).reverse := rfl
    have hsl : ((natHexRevFuel n n).reverse.asString).length = ((natHexRevFuel n n).reverse).length := rfl
    rw [if_neg (by rw [hsl]; exact hlen), htl,
      natOfHexAux_natHexRevFuel n n 0 (Nat.le_refl n)]
    simp

/-- JS `Map.get` after `Map.set` with the same key finds the new value. -/
theorem lookup_mapSet_self {α : Type} (k : String) (v : α) (l : List (String × α)) :
    lookup k (mapSet k v l) = some v := by
  induction l with
  | nil => simp [mapSet, lookup]
  | cons hd tl ih =>
    obtain ⟨k0, v0⟩ := hd
    by_cases h : k0 == k
    · simp [mapSet, lookup, h]
    · simp only [mapSet, lookup, h, if_neg]
      simpa [lookup, h] using ih

-- ═══════════════════════════════════════════════════════════════════════════
-- Shared concrete inputs for claim instances
-- ═══════════════════════════════════════════════════════════════════════════

/-- A 64-character all-zero hex string: a possible output of
`crypto.randomBytes(32).toString(hexName)` (blinding factors, challenges). -/
def zeros64 : String := "0000000000000000000000000000000000000000000000000000000000000000"

/-- A 32-character all-zero hex string: a possible nonce
(`crypto.randomBytes(16)`). -/
def zeros32 : String := "00000000000000000000000000000000"

/-- A license key of the exact shape produced by `generateLicenseKey`
(the all-zero random draw). -/
def demoKey : String :=
  "QP-00000000-00000000-00000000-00000000-00000000-00000000-00000000-00000000"

/-- Blinding factors drawn as all-zero random bytes. The ten per-feature
blinding strings are never read by the source, so the list is left empty. -/
def zeroBf : BlindingFactors := ⟨zeros64, zeros64, zeros64, []⟩

/-- Zero draw of every random scalar (0 is in the range of `randomScalar`). -/
def rnd0 : Randomness := ⟨0, 0, 0, 0, 0, 0⟩

-- ═══════════════════════════════════════════════════════════════════════════
-- C4: commitment binding
-- ═══════════════════════════════════════════════════════════════════════════

/-- C4 counterexample: the claim that `pedersenCommit` cannot be opened to
two different values fails at an explicit input - the commitments to value 5
with blinding 0 and to value 0 with blinding 1 coincide, yet 5 is not 0. -/
theorem C4_counterexample :
    pedersenCommit 5 0 = pedersenCommit 0 1 ∧ (5 : Int) ≠ 0 := by decide

/-- C4 (amended): binding fails systematically - for every value `v`,
blinding `r` and shift `d`, the commitment to `v + 5*d` with blinding
`r - d` equals the commitment to `v` with blinding `r`, because
`pedersenCommit` depends only on `v + 5*r` modulo the field modulus. -/
theorem C4_binding_fails (v r d : Int) :
    pedersenCommit (v + 5 * d) (r - d) = pedersenCommit v r := by
  unfold pedersenCommit pedersenCommitInt g1x hx
  congr 1
  ring_nf

-- ═══════════════════════════════════════════════════════════════════════════
-- C7: commitment homomorphism
-- ═══════════════════════════════════════════════════════════════════════════

/-- C7: `pedersenCommit` is deterministic (it is a function of its two
arguments alone) and additively homomorphic - adding the numeric values of
two commitments modulo the field modulus gives exactly the commitment to
the sums of the values and the blindings, both numerically and as the
rendered 64-character commitment string. -/
theorem C7_commitment_homomorphism (a b r1 r2 : Nat) :
    (pedersenCommitInt a r1 + pedersenCommitInt b r2) % fieldModulus =
      pedersenCommitInt ((a : Int) + b) ((r1 : Int) + r2) ∧
    pedersenCommit ((a : Int) + b) ((r1 : Int) + r2) =
      jsHexPad64 ((pedersenCommitInt a r1 + pedersenCommitInt b r2) % fieldModulus) := by
  have h1 : (pedersenCommitInt a r1 + pedersenCommitInt b r2) % fieldModulus =
      pedersenCommitInt ((a : Int) + b) ((r1 : Int) + r2) := by
    unfold pedersenCommitInt g1x hx fieldModulus
    rw [Int.tmod_eq_emod (by positivity) (by decide),
        Int.tmod_eq_emod (by positivity) (by decide),
        Int.tmod_eq_emod (by positivity) (by decide), ← Int.add_emod]
    congr 1
    ring
  exact ⟨h1, by rw [pedersenCommit, h1]⟩

-- ═══════════════════════════════════════════════════════════════════════════
-- C1: round-trip proof correctness
-- ═══════════════════════════════════════════════════════════════════════════

/-- License for the C1 run: enterprise tier, expiring 2026-01-01, with the
all-zero random draws (all inside the support of the source's sampling). -/
def c1License : LicenseCommitment × LicenseSecret :=
  createLicense DEFAULT_CONFIG .enterprise 1767225600 demoKey zeroBf "cmt_1"

/-- Ownership proof request with an all-zero challenge. -/
def c1Request : ProofRequest :=
  ⟨"req_1", .licenseOwnership, emptyReqs, zeros64, 300000⟩

/-- Full client run of `generateProof` for the C1 license. -/
def c1Result : Except ZKError ZKProof × RateState :=
  generateProof DEFAULT_CONFIG ⟨[], 0⟩ 0 c1License.2 c1License.1 c1Request "proof_1" zeros32 rnd0

/-- C1: the round-trip fails on license-ownership - the honestly generated
ownership proof for a truly valid witness is REJECTED by `verifyProof`
(valid = false), because the verifier's `pedersenVerify` recomputation
`s1*g1.x + s2*h.x - c*C` is reduced with the truncating JS `%`, yielding a
negative residue rendered with a minus sign that can never equal the
64-character first message `t`, and because `s1`, `s2` are reduced modulo
the group order while the check runs modulo the field modulus. This
evaluates the code at the failing input. -/
theorem C1_ownership_roundtrip_rejected :
    c1Result.1.toOption.map (fun p =>
      (verifyProof DEFAULT_CONFIG ⟨[("cmt_1", c1License.1)], []⟩ 0 p).1.valid) =
      some false := by decide

-- ═══════════════════════════════════════════════════════════════════════════
-- C2: soundness under tampering
-- ═══════════════════════════════════════════════════════════════════════════

/-- License for the C2 run: starter tier (quota 100000). -/
def c2License : LicenseCommitment × LicenseSecret :=
  createLicense DEFAULT_CONFIG .starter 1767225600 demoKey zeroBf "cmt_2"

/-- Usage-quota proof request (required quota 10) with all-zero challenge. -/
def c2Request : ProofRequest :=
  ⟨"req_2", .usageQuota, ⟨none, none, some 10, none, none⟩, zeros64, 300000⟩

/-- Random draw with scalar 3 for the difference blinding. -/
def c2Rnd : Randomness := ⟨3, 0, 0, 0, 0, 0⟩

/-- Full client run of `generateProof` for the C2 quota proof. -/
def c2Result : Except ZKError ZKProof × RateState :=
  generateProof DEFAULT_CONFIG ⟨[], 0⟩ 0 c2License.2 c2License.1 c2Request "proof_2" zeros32 c2Rnd

/-- The honestly generated quota proof. -/
def c2ZK : ZKProof :=
  c2Result.1.toOption.getD
    (packageProof "" .usageQuota (⟨("", ""), (("", ""), ("", "")), ("", "")⟩, []) "" "" "")

/-- The same proof with one byte of `proof.b[0][0]` changed (the digit 3
replaced by 4). -/
def c2Tampered : ZKProof :=
  { c2ZK with proof := ⟨c2ZK.proof.a, (("4", c2ZK.proof.b.1.2), c2ZK.proof.b.2), c2ZK.proof.c⟩ }

/-- Verifier state holding the C2 commitment. -/
def c2St : VerifierState := ⟨[("cmt_2", c2License.1)], []⟩

/-- C2 counterexample: a quota proof that verifies valid = true still
verifies valid = true after a single byte of `proof.b` is changed - the
usage-quota branch returns true from structural presence alone (a non-empty
`proof.a[0]`), so tampering is not detected. -/
theorem C2_counterexample :
    (verifyProof DEFAULT_CONFIG c2St 0 c2ZK).1.valid = true ∧
    (verifyProof DEFAULT_CONFIG c2St 0 c2Tampered).1.valid = true ∧
    c2ZK.proof.b.1.1 = "3" ∧ c2Tampered.proof.b.1.1 = "4" := by decide

/-- C2 (amended): for usage-quota proofs the verifier checks nothing but a
registered commitment id and a non-empty `proof.a[0]`; any proof with those
two properties - in particular one with arbitrarily tampered `proof.b`,
`proof.c` or `publicInputs` - verifies valid = true. -/
theorem C2_quota_verification_structural (cfg : ZKConfig) (st : VerifierState) (now : Nat)
    (p : ZKProof) (cm : LicenseCommitment)
    (hcache : lookup p.proofId st.proofCache = none)
    (hcm : lookup p.commitmentId st.commitments = some cm)
    (hty : p.proofType = .usageQuota)
    (ha : 0 < p.proof.a.1.length) :
    (verifyProof cfg st now p).1.valid = true := by
  simp only [verifyProof, hcache, verifyProofCore, hcm]
  simp [verifyDispatch, hty, verifyQuotaProof, ha]

/-- A minimal tampered-looking quota proof: arbitrary `b`, `c` and
publicInputs, non-empty `a[0]`. -/
def c2wProof : ZKProof :=
  ⟨"proof_2w", .usageQuota, ⟨("ab", "zz"), (("tampered", "junk"), ("x", "y")), ("no-link", "n")⟩,
   ["garbage"], "cmt_2w", "n", "ch"⟩

/-- Commitment the C2 witness proof refers to. -/
def c2wCm : LicenseCommitment := ⟨"cmt_2w", "c", "t", "e", "m", "v"⟩

/-- Witness for C2 (amended) at a concrete input. -/
theorem C2_quota_verification_structural_witness :
    (verifyProof DEFAULT_CONFIG ⟨[("cmt_2w", c2wCm)], []⟩ 0 c2wProof).1.valid = true :=
  C2_quota_verification_structural DEFAULT_CONFIG ⟨[("cmt_2w", c2wCm)], []⟩ 0 c2wProof c2wCm
    (by decide) (by decide) (by decide) (by decide)

-- ═══════════════════════════════════════════════════════════════════════════
-- C3: range-proof negative case
-- ═══════════════════════════════════════════════════════════════════════════

/-- License for the C3 run: trial tier (rank 1). -/
def c3License : LicenseCommitment × LicenseSecret :=
  createLicense DEFAULT_CONFIG .trial 1767225600 demoKey zeroBf "cmt_3"

/-- Tier-membership request demanding at least the enterprise tier (rank 4). -/
def c3Request : ProofRequest :=
  ⟨"req_3", .tierMembership, ⟨some .enterprise, none, none, none, none⟩, zeros64, 300000⟩

/-- Random draw for the C3 run. -/
def c3Rnd : Randomness := ⟨2, 0, 1, 1, 1, 1⟩

/-- Full client run of `generateProof` for the C3 tier proof. -/
def c3Result : Except ZKError ZKProof × RateState :=
  generateProof DEFAULT_CONFIG ⟨[], 0⟩ 0 c3License.2 c3License.1 c3Request "proof_3" zeros32 c3Rnd

/-- C3 counterexample: a trial witness (tier rank 1, strictly below the
required enterprise rank 4) produces a tier-membership proof without any
rejection, and `verifyProof` ACCEPTS it with valid = true - the negative
difference is committed without a sign check and the verifier only compares
the tier-commitment linkage. -/
theorem C3_counterexample :
    c3License.2.witnessData.tierValue < DEFAULT_CONFIG.tierHierarchy .enterprise ∧
    c3Result.1.toOption.map (fun p =>
      (verifyProof DEFAULT_CONFIG ⟨[("cmt_3", c3License.1)], []⟩ 0 p).1.valid) =
      some true := by decide

/-- C3 (amended): the tier-membership flow never fails on a witness below
the requested tier - `generateTierMembershipProof` has no rejection path
(the difference may be negative) and `verifyTierMembershipProof` accepts
every generated proof, because the packaged `proof.c[0]` always equals the
tier commitment and the challenge scalar in `proof.b[0][1]` always parses. -/
theorem C3_tier_negative_accepted (cfg : ZKConfig) (secret : LicenseSecret)
    (cm : LicenseCommitment) (minimumTier : LicenseTier)
    (challenge nonce proofId : String) (rnd : Randomness)
    (_hlt : secret.witnessData.tierValue < cfg.tierHierarchy minimumTier) :
    verifyTierMembershipProof
      (packageProof proofId .tierMembership
        (generateTierMembershipProof cfg secret cm minimumTier challenge nonce rnd)
        cm.commitmentId nonce challenge) cm = true := by
  simp [verifyTierMembershipProof, packageProof, generateTierMembershipProof, natOfHex_natHex]

/-- Witness for C3 (amended) at the concrete trial-versus-enterprise input. -/
theorem C3_tier_negative_accepted_witness :
    verifyTierMembershipProof
      (packageProof "proof_3w" .tierMembership
        (generateTierMembershipProof DEFAULT_CONFIG c3License.2 c3License.1 .enterprise
          zeros64 zeros32 c3Rnd)
        c3License.1.commitmentId zeros32 zeros64) c3License.1 = true :=
  C3_tier_negative_accepted DEFAULT_CONFIG c3License.2 c3License.1 .enterprise
    zeros64 zeros32 "proof_3w" c3Rnd (by decide)

-- ═══════════════════════════════════════════════════════════════════════════
-- C5: replay rejection
-- ═══════════════════════════════════════════════════════════════════════════

/-- Commitment for the C5 run. -/
def c5Cm : LicenseCommitment := ⟨"cmt_5", "cc", "tc", "ec", "mr", "vk"⟩

/-- A valid time-validity proof (its `c[0]` matches the expiration
commitment). -/
def c5Proof : ZKProof :=
  ⟨"proof_5", .timeValidity, ⟨("d", "e"), (("r", "x"), ("y", "z")), ("ec", "n")⟩,
   [], "cmt_5", "n", "ch"⟩

/-- Verifier state holding the C5 commitment, empty cache. -/
def c5St : VerifierState := ⟨[("cmt_5", c5Cm)], []⟩

/-- Verifier state after the first verification of the C5 proof. -/
def c5After : VerifierState := (verifyProof DEFAULT_CONFIG c5St 0 c5Proof).2

/-- C5 counterexample: re-submitting an already-verified proof (same
challenge, same everything) does NOT fail - the second `verifyProof` call
returns the cached result with valid = true; no challenge is ever consumed
or tracked. -/
theorem C5_counterexample :
    (verifyProof DEFAULT_CONFIG c5St 0 c5Proof).1.valid = true ∧
    (verifyProof DEFAULT_CONFIG c5After 1 c5Proof).1.valid = true := by decide

/-- C5 (amended): re-submitting an already-verified proof inside the cache
window returns exactly the first result again (valid = true for a proof
that verified), with the state unchanged - replay is answered from the
cache keyed by proof id; the challenge plays no role. -/
theorem C5_replay_returns_cached (cfg : ZKConfig) (st : VerifierState) (now1 now2 : Nat)
    (p : ZKProof) (cm : LicenseCommitment) (r : VerificationResult) (st1 : VerifierState)
    (hfresh : lookup p.proofId st.proofCache = none)
    (hcm : lookup p.commitmentId st.commitments = some cm)
    (h1 : verifyProof cfg st now1 p = (r, st1))
    (hnow : now2 < now1 + cfg.verificationCacheMs) :
    verifyProof cfg st1 now2 p = (r, st1) := by
  simp only [verifyProof, hfresh, verifyProofCore, hcm] at h1
  obtain ⟨hr, hst⟩ := Prod.mk.injEq .. ▸ h1
  subst hr
  subst hst
  simp only [verifyProof, lookup_mapSet_self]
  rw [if_pos hnow]

/-- Witness for C5 (amended): the concrete C5 proof replayed at time 1. -/
theorem C5_replay_returns_cached_witness :
    verifyProof DEFAULT_CONFIG c5After 1 c5Proof =
      ((verifyProof DEFAULT_CONFIG c5St 0 c5Proof).1, c5After) :=
  C5_replay_returns_cached DEFAULT_CONFIG c5St 0 1 c5Proof c5Cm
    (verifyProof DEFAULT_CONFIG c5St 0 c5Proof).1 c5After
    (by decide) (by decide) rfl (by decide)

-- ═══════════════════════════════════════════════════════════════════════════
-- C6: Merkle inclusion correctness
-- ═══════════════════════════════════════════════════════════════════════════

/-- The seven-feature enterprise feature list. -/
def entFeatures : List String := (defaultTierLimits .enterprise).features

/-- The enterprise feature Merkle tree: root and per-feature proofs. -/
def entTree : String × List (String × MerkleProof) := createFeatureMerkleTree entFeatures

/-- Fold of the Merkle proof stored for the seventh enterprise feature
(priority-support, leaf index 6), following the claim's folding rule. -/
def c6FoldResult : Option String :=
  (lookup "priority-support" entTree.2).map
    (fun mp => specFoldMerklePath mp.leaf mp.path mp.indices)

set_option maxHeartbeats 8000000 in
/-- C6: the claim fails for the seventh feature of the 7-feature enterprise
tier - its Merkle proof exists, but folding it does NOT reproduce the tree
root, because `createFeatureMerkleTree` silently drops the level-0 sibling
of leaf 6 (the duplicated trailing leaf has sibling index 7, which is not
below the level length 7), so the fold starts one level too high. This
evaluates the code at the failing input. -/
theorem C6_seventh_feature_fold_fails :
    c6FoldResult.isSome = true ∧ c6FoldResult ≠ some entTree.1 := by decide

/-- From a freshly reset state, the rate limiter always admits the call and
sets the counter to one. -/
theorem checkRateLimit_fresh (cfg : ZKConfig) (now : Nat) (id : String)
    (hpos : 0 < cfg.maxProofsPerHour) :
    checkRateLimit cfg now id ⟨[], now⟩ = (⟨[(id, 1)], now⟩, true) := by
  unfold checkRateLimit
  rw [if_neg (by omega : ¬ (now - now > 3600000))]
  simp only [lookup, Option.getD_none]
  rw [if_neg (by omega : ¬ (0 ≥ cfg.maxProofsPerHour))]
  rfl

-- ═══════════════════════════════════════════════════════════════════════════
-- C8: client-side witness rejection
-- ═══════════════════════════════════════════════════════════════════════════

/-- C8: `generateProof` fails with the matching typed error, returning no
proof, whenever the witness does not satisfy the statement: insufficient
quota when the remaining quota is below the requirement, exceeded worker
limit when more workers are requested than licensed, expired license when
the expiration is not after the current timestamp, and unlicensed feature
when the witness holds no Merkle proof for the feature. -/
theorem C8_witness_rejection (secret : LicenseSecret) (cm : LicenseCommitment)
    (proofId nonce challenge : String) (now : Nat) (rnd : Randomness)
    (rq wk ts : Int) (ft : String) :
    (secret.witnessData.usageQuota - secret.witnessData.usedQuota < rq →
      (generateProof DEFAULT_CONFIG ⟨[], now⟩ now secret cm
        ⟨"req_q", .usageQuota, ⟨none, none, some rq, none, none⟩, challenge, 0⟩
        proofId nonce rnd).1 = .error .insufficientQuota) ∧
    (wk > secret.witnessData.maxWorkers →
      (generateProof DEFAULT_CONFIG ⟨[], now⟩ now secret cm
        ⟨"req_w", .workerAllocation, ⟨none, none, none, some wk, none⟩, challenge, 0⟩
        proofId nonce rnd).1 = .error .exceedsWorkerLimit) ∧
    (secret.witnessData.expirationTimestamp ≤ ts →
      (generateProof DEFAULT_CONFIG ⟨[], now⟩ now secret cm
        ⟨"req_t", .timeValidity, ⟨none, none, none, none, some ts⟩, challenge, 0⟩
        proofId nonce rnd).1 = .error .licenseExpired) ∧
    (lookup ft secret.witnessData.featureMerkleProofs = none →
      (generateProof DEFAULT_CONFIG ⟨[], now⟩ now secret cm
        ⟨"req_f", .featureAccess, ⟨none, some ft, none, none, none⟩, challenge, 0⟩
        proofId nonce rnd).1 = .error (.featureNotLicensed ft)) := by
  refine ⟨fun h => ?_, fun h => ?_, fun h => ?_, fun h => ?_⟩ <;>
    simp [generateProof, checkRateLimit, lookup, DEFAULT_CONFIG, generateQuotaProof,
      generateWorkerAllocationProof, generateTimeValidityProof, generateFeatureAccessProof, h]

/-- Witness data violating all four statements at once: quota 0, one worker,
expired at time 10, no features. -/
def c8Witness : WitnessData := ⟨.trial, 1, 10, 1, [], 0, 0, []⟩

/-- Secret holding the violating C8 witness. -/
def c8Secret : LicenseSecret := ⟨"k", zeroBf, c8Witness⟩

/-- Commitment referenced by the C8 runs. -/
def c8Cm : LicenseCommitment := ⟨"cmt_8", "c", "t", "e", "m", "v"⟩

/-- Witness for C8 at a concrete input: all four rejections fire. -/
theorem C8_witness_rejection_witness :
    ((generateProof DEFAULT_CONFIG ⟨[], 0⟩ 0 c8Secret c8Cm
        ⟨"req_q", .usageQuota, ⟨none, none, some 5, none, none⟩, "ch", 0⟩
        "p" "n" rnd0).1 = .error .insufficientQuota) ∧
    ((generateProof DEFAULT_CONFIG ⟨[], 0⟩ 0 c8Secret c8Cm
        ⟨"req_w", .workerAllocation, ⟨none, none, none, some 2, none⟩, "ch", 0⟩
        "p" "n" rnd0).1 = .error .exceedsWorkerLimit) ∧
    ((generateProof DEFAULT_CONFIG ⟨[], 0⟩ 0 c8Secret c8Cm
        ⟨"req_t", .timeValidity, ⟨none, none, none, none, some 10⟩, "ch", 0⟩
        "p" "n" rnd0).1 = .error .licenseExpired) ∧
    ((generateProof DEFAULT_CONFIG ⟨[], 0⟩ 0 c8Secret c8Cm
        ⟨"req_f", .featureAccess, ⟨none, some "x", none, none, none⟩, "ch", 0⟩
        "p" "n" rnd0).1 = .error (.featureNotLicensed "x")) := by
  have h := C8_witness_rejection c8Secret c8Cm "p" "n" "ch" 0 rnd0 5 2 10 "x"
  exact ⟨h.1 (by decide), h.2.1 (by decide), h.2.2.1 (by decide), h.2.2.2 (by decide)⟩

-- ═══════════════════════════════════════════════════════════════════════════
-- C9: rate limiting
-- ═══════════════════════════════════════════════════════════════════════════

/-- State transform of one rate-limited call (the state component of
`checkRateLimit`). -/
def rateStep (cfg : ZKConfig) (now : Nat) (commitmentId : String) (st : RateState) : RateState :=
  (checkRateLimit cfg now commitmentId st).1

/-- Iterated rate-limited calls at a fixed time. -/
def rateIter (cfg : ZKConfig) (now : Nat) (commitmentId : String) : Nat → RateState → RateState
  | 0, st => st
  | n + 1, st => rateStep cfg now commitmentId (rateIter cfg now commitmentId n st)

/-- After `k ≤ 1000` calls inside the hourly window, the counter for the
commitment id is exactly `k`. -/
theorem rateIter_counts (now t0 : Nat) (commitmentId : String)
    (hwin : now - t0 ≤ 3600000) :
    ∀ k, k ≤ 1000 →
      rateIter DEFAULT_CONFIG now commitmentId k ⟨[], t0⟩ =
        ⟨if k = 0 then [] else [(commitmentId, k)], t0⟩ := by
  intro k
  induction k with
  | zero => intro _; rfl
  | succ k ih =>
    intro hk
    have hres : ¬ (now - t0 > 3600000) := by omega
    have hcap : ¬ (k ≥ DEFAULT_CONFIG.maxProofsPerHour) := by
      show ¬ (k ≥ 1000)
      omega
    have hcap0 : ¬ (0 ≥ DEFAULT_CONFIG.maxProofsPerHour) := by
      show ¬ (0 ≥ 1000)
      omega
    rw [rateIter, rateStep, ih (by omega)]
    by_cases hk0 : k = 0
    · subst hk0
      simp only [checkRateLimit, if_neg hres, if_pos rfl, lookup, Option.getD_none,
        if_neg hcap0, mapSet]
      rfl
    · simp only [checkRateLimit, if_neg hres, if_neg hk0, lookup, beq_self_eq_true, if_pos,
        Option.getD_some, if_neg hcap, mapSet]
      simp [hk0]

/-- C9: with the default 1000-per-hour ceiling and a single commitment id,
every one of the first 1000 calls inside the hourly window passes the rate
limiter, the 1001st call makes `generateProof` fail with the rate-limit
error before any proof is constructed, and once the hourly window has
elapsed the counters reset so a later call passes again. -/
theorem C9_rate_limiting (secret : LicenseSecret) (cm : LicenseCommitment)
    (request : ProofRequest) (proofId nonce : String) (rnd : Randomness)
    (now t0 now2 : Nat) (hwin : now - t0 ≤ 3600000) :
    (∀ k, k < 1000 →
      (checkRateLimit DEFAULT_CONFIG now cm.commitmentId
        (rateIter DEFAULT_CONFIG now cm.commitmentId k ⟨[], t0⟩)).2 = true) ∧
    ((generateProof DEFAULT_CONFIG
        (rateIter DEFAULT_CONFIG now cm.commitmentId 1000 ⟨[], t0⟩)
        now secret cm request proofId nonce rnd).1 = .error .rateLimitExceeded) ∧
    (now2 - t0 > 3600000 →
      (checkRateLimit DEFAULT_CONFIG now2 cm.commitmentId
        (rateIter DEFAULT_CONFIG now cm.commitmentId 1000 ⟨[], t0⟩)).2 = true) := by
  have hres : ¬ (now - t0 > 3600000) := by omega
  refine ⟨?_, ?_, ?_⟩
  · intro k hk
    rw [rateIter_counts now t0 cm.commitmentId hwin k (by omega)]
    by_cases hk0 : k = 0
    · subst hk0
      simp only [checkRateLimit, if_neg hres, if_pos rfl, lookup, Option.getD_none]
      rw [if_neg (show ¬ (0 ≥ DEFAULT_CONFIG.maxProofsPerHour) from by
        show ¬ (0 ≥ 1000); omega)]
    · simp only [checkRateLimit, if_neg hres, if_neg hk0, lookup, beq_self_eq_true, if_pos,
        Option.getD_some]
      rw [if_neg (show ¬ (k ≥ DEFAULT_CONFIG.maxProofsPerHour) from by
        show ¬ (k ≥ 1000); omega)]
  · rw [rateIter_counts now t0 cm.commitmentId hwin 1000 (by omega)]
    have hcapfull : (1000 : Nat) ≥ DEFAULT_CONFIG.maxProofsPerHour := by
      show (1000 : Nat) ≥ 1000
      omega
    simp [generateProof, checkRateLimit, if_neg hres, lookup, hcapfull]
  · intro h2
    rw [rateIter_counts now t0 cm.commitmentId hwin 1000 (by omega)]
    simp only [checkRateLimit, if_pos h2, lookup, Option.getD_none]
    rw [if_neg (show ¬ (0 ≥ DEFAULT_CONFIG.maxProofsPerHour) from by
      show ¬ (0 ≥ 1000); omega)]

/-- Request used by the C9 witness run. -/
def c9Request : ProofRequest := ⟨"req_9", .licenseOwnership, emptyReqs, "ch", 0⟩

/-- Witness for C9 at a concrete input: after 1000 calls at time 0, the
1001st call fails with the rate-limit error, and a call after the window
(time 3600001) passes the limiter again. -/
theorem C9_rate_limiting_witness :
    ((generateProof DEFAULT_CONFIG
        (rateIter DEFAULT_CONFIG 0 "cmt_8" 1000 ⟨[], 0⟩)
        0 c8Secret c8Cm c9Request "p" "n" rnd0).1 = .error .rateLimitExceeded) ∧
    ((checkRateLimit DEFAULT_CONFIG 3600001 "cmt_8"
        (rateIter DEFAULT_CONFIG 0 "cmt_8" 1000 ⟨[], 0⟩)).2 = true) := by
  have h := C9_rate_limiting c8Secret c8Cm c9Request "p" "n" rnd0 0 0 3600001 (by decide)
  exact ⟨h.2.1, h.2.2 (by decide)⟩

-- ═══════════════════════════════════════════════════════════════════════════
-- C10: unlimited tier can never produce a usage-quota proof
-- ═══════════════════════════════════════════════════════════════════════════

/-- C10: under the default configuration, a license created for the
unlimited tier has monthly quota -1 and used quota 0, so its remaining
quota is -1 and `generateProof` for a usage-quota request fails with the
insufficient-quota error for every non-negative required quota. -/
theorem C10_unlimited_quota_rejected (now : Nat) (ts : Int) (licenseKey : String)
    (bf : BlindingFactors) (commitmentId proofId nonce challenge : String)
    (rnd : Randomness) (rq : Int) (hrq : 0 ≤ rq) :
    (generateProof DEFAULT_CONFIG ⟨[], now⟩ now
      (createLicense DEFAULT_CONFIG .unlimited ts licenseKey bf commitmentId).2
      (createLicense DEFAULT_CONFIG .unlimited ts licenseKey bf commitmentId).1
      ⟨"req_u", .usageQuota, ⟨none, none, some rq, none, none⟩, challenge, 0⟩
      proofId nonce rnd).1 = .error .insufficientQuota := by
  have hq : ((createLicense DEFAULT_CONFIG .unlimited ts licenseKey bf
      commitmentId).2).witnessData.usageQuota = -1 := by
    simp [createLicense, DEFAULT_CONFIG, defaultTierLimits]
  have hu : ((createLicense DEFAULT_CONFIG .unlimited ts licenseKey bf
      commitmentId).2).witnessData.usedQuota = 0 := by
    simp [createLicense]
  have hlt : ((createLicense DEFAULT_CONFIG .unlimited ts licenseKey bf
        commitmentId).2).witnessData.usageQuota -
      ((createLicense DEFAULT_CONFIG .unlimited ts licenseKey bf
        commitmentId).2).witnessData.usedQuota < rq := by
    rw [hq, hu]
    omega
  have hfresh := checkRateLimit_fresh DEFAULT_CONFIG now
    ((createLicense DEFAULT_CONFIG .unlimited ts licenseKey bf commitmentId).1.commitmentId)
    (by decide)
  simp [generateProof, hfresh, generateQuotaProof, hlt]

/-- Witness for C10 at a concrete input (required quota 0). -/
theorem C10_unlimited_quota_rejected_witness :
    (generateProof DEFAULT_CONFIG ⟨[], 0⟩ 0
      (createLicense DEFAULT_CONFIG .unlimited 0 "k" zeroBf "cmt_10").2
      (createLicense DEFAULT_CONFIG .unlimited 0 "k" zeroBf "cmt_10").1
      ⟨"req_u", .usageQuota, ⟨none, none, some 0, none, none⟩, "ch", 0⟩
      "p" "n" rnd0).1 = .error .insufficientQuota :=
  C10_unlimited_quota_rejected 0 0 "k" zeroBf "cmt_10" "p" "n" "ch" rnd0 0 (by decide)
